import Mathlib

/-!
Verification of the `storage-service` repository: a pair of JSON
save/load helpers (`src/lib.rs`), their async variants, and a historical
revision (`src/store.rs`).

The filesystem is modelled as a `World`: a map from paths (strings) to
optional file contents, a set of existing directories, and per-path
error oracles that decide whether each primitive filesystem call
(`File::create`, `write_all`, `File::open`, `read_to_string`,
`fs::create_dir`) fails at that path.  The serde_json collaborator is
modelled as an abstract `Codec`: an `enc`/`dec` pair supplied by the
caller, mirroring the `Serialize`/`DeserializeOwned` bounds of the Rust
generics.  Each Rust operation becomes a pure state-passing function on
`World`.
-/

set_option autoImplicit false

/-- Error taxonomy of the library: every failure of `save`/`load` is an
`io::Error`; serde failures are converted into one by the `?` operator. -/
inductive IoError where
  | notFound
  | permissionDenied
  | encodeFailure (msg : String)
  | decodeFailure (msg : String)
  | ioFailure (msg : String)
  deriving DecidableEq, Repr

/-- The serde_json collaborator, abstracted over the value type: `enc`
models `serde_json::to_string`, `dec` models `serde_json::from_str`,
each returning either the result or an error message. -/
structure Codec (α : Type) where
  enc : α → Except String String
  dec : String → Except String α

/-- Filesystem state together with error oracles for the primitive
calls.  `files p = some c` means a file with contents `c` exists at `p`;
`dirs p = true` means a directory exists at `p`.  Each `...Err` field
answers whether the corresponding primitive fails at a path, and with
which error. -/
structure World where
  files : String → Option String
  dirs : String → Bool
  createErr : String → Option IoError
  writeErr : String → Option IoError
  openErr : String → Option IoError
  readErr : String → Option IoError
  mkdirErr : String → Option IoError

/-- Overwrite (or create) the file at `p` with contents `c`. -/
def World.setFile (w : World) (p c : String) : World :=
  { w with files := fun q => if q = p then some c else w.files q }

/-- Record that the directory `p` now exists. -/
def World.setDir (w : World) (p : String) : World :=
  { w with dirs := fun q => if q = p then true else w.dirs q }

/-- `Path::new(p).exists()`: true when a file or directory exists at `p`. -/
def World.pathExists (w : World) (p : String) : Bool :=
  w.dirs p || (w.files p).isSome

/-- `storage_service::save` (src/lib.rs lines 46-55): serialize `data`
with `serde_json::to_string`, create (truncating) the file at `path`
with `std::fs::File::create`, then `write_all` the JSON bytes.  Every
failing step returns its error via `?`. -/
def Storage.save {α : Type} (cv : Codec α) (w : World) (path : String) (data : α) :
    Except IoError Unit × World :=
  match cv.enc data with
  | .error m => (.error (.encodeFailure m), w)
  | .ok json_data =>
    match w.createErr path with
    | some e => (.error e, w)
    | none =>
      let w1 := w.setFile path ""
      match w.writeErr path with
      | some e => (.error e, w1)
      | none => (.ok (), w1.setFile path json_data)

/-- `storage_service::save_async` (src/lib.rs lines 98-107): identical
pipeline to `save`, with serialization delegated to
`tokio::task::spawn_blocking` and the file I/O done through
`tokio::fs`.  The delegation is awaited before the file is created, so
the logical sequence is unchanged. -/
def Storage.save_async {α : Type} (cv : Codec α) (w : World) (path : String) (data : α) :
    Except IoError Unit × World :=
  match cv.enc data with
  | .error m => (.error (.encodeFailure m), w)
  | .ok json_data =>
    match w.createErr path with
    | some e => (.error e, w)
    | none =>
      let w1 := w.setFile path ""
      match w.writeErr path with
      | some e => (.error e, w1)
      | none => (.ok (), w1.setFile path json_data)

/-- `storage_service::load` (src/lib.rs lines 145-157): open the file at
`path` (`NotFound` when absent), read its entire contents to a string,
then deserialize with `serde_json::from_str`.  Every failing step
returns its error via `?`. -/
def Storage.load {α : Type} (cv : Codec α) (w : World) (path : String) :
    Except IoError α :=
  match w.files path with
  | none => .error .notFound
  | some content =>
    match w.openErr path with
    | some e => .error e
    | none =>
      match w.readErr path with
      | some e => .error e
      | none =>
        match cv.dec content with
        | .error m => .error (.decodeFailure m)
        | .ok data => .ok data

/-- `storage_service::load_async` (src/lib.rs lines 200-212): identical
pipeline to `load`, with the file I/O done through `tokio::fs` and the
deserialization delegated to `tokio::task::spawn_blocking` after the
read completes. -/
def Storage.load_async {α : Type} (cv : Codec α) (w : World) (path : String) :
    Except IoError α :=
  match w.files path with
  | none => .error .notFound
  | some content =>
    match w.openErr path with
    | some e => .error e
    | none =>
      match w.readErr path with
      | some e => .error e
      | none =>
        match cv.dec content with
        | .error m => .error (.decodeFailure m)
        | .ok data => .ok data

/-- `store::combine_path` (src/store.rs lines 335-337 of the
concatenated listing): `format!("{}/{}", path1, path2)`. -/
def Store.combine_path (path1 path2 : String) : String :=
  path1 ++ "/" ++ path2

/-- Outcome of the historical `store::save`, which returns `()` and can
only terminate normally or panic (its two `unwrap` calls). -/
inductive StoreOutcome where
  | ok
  | panicked
  deriving DecidableEq, Repr

/-- `store::save` (src/store.rs lines 5-18): if `path` does not exist,
`fs::create_dir(path)` is attempted and its result discarded; the file
path is `combine_path(path, filename)`; serialization and
`File::create` are `unwrap`ed (panic on failure); the result of
`write_all` is discarded. -/
def Store.save {α : Type} (cv : Codec α) (w : World) (path filename : String) (data : α) :
    StoreOutcome × World :=
  let w0 :=
    if w.pathExists path then w
    else
      match w.mkdirErr path with
      | some _ => w
      | none => w.setDir path
  let full := Store.combine_path path filename
  match cv.enc data with
  | .error _ => (.panicked, w0)
  | .ok json_data =>
    match w0.createErr full with
    | some _ => (.panicked, w0)
    | none =>
      let w1 := w0.setFile full ""
      match w0.writeErr full with
      | some _ => (.ok, w1)
      | none => (.ok, w1.setFile full json_data)

/-- `store::load` (src/store.rs lines 20-39): open the file; on success
read its contents (result discarded), deserialize, and match on the
result — but the match expression's value is itself discarded (a stray
`;`), so the function falls through to the trailing `None` on every
path. -/
def Store.load {α : Type} (cv : Codec α) (w : World) (path : String) : Option α :=
  match w.files path, w.openErr path with
  | some content, none =>
    let json_data :=
      match w.readErr path with
      | some _ => ""
      | none => content
    let res := cv.dec json_data
    let _discarded : Option α :=
      match res with
      | .ok data => some data
      | .error _ => none
    none
  | _, _ => none

/-- Value of a decimal digit character, `none` for a non-digit. -/
def digitVal (c : Char) : Option Nat :=
  if 48 ≤ c.toNat ∧ c.toNat ≤ 57 then some (c.toNat - 48) else none

/-- Read a decimal numeral from a list of characters, accumulator style;
`none` as soon as a non-digit appears. -/
def decodeDecimal : List Char → Nat → Option Nat
  | [], acc => some acc
  | c :: cs, acc =>
    match digitVal c with
    | some d => decodeDecimal cs (acc * 10 + d)
    | none => none

/-- A concrete codec used as a test fixture: natural numbers encoded as
their decimal JSON number literal.  `dec` rejects any text that is not
a non-empty plain decimal numeral, matching serde_json rejecting both
invalid JSON and shape mismatches for a numeric target type. -/
def natCodec : Codec Nat where
  enc n := .ok (toString n)
  dec s :=
    match s.data with
    | [] => .error "invalid type"
    | c :: cs =>
      match decodeDecimal (c :: cs) 0 with
      | some n => .ok n
      | none => .error "invalid type"

/-- A world with no files, no directories and no injected errors. -/
def emptyWorld : World where
  files := fun _ => none
  dirs := fun _ => false
  createErr := fun _ => none
  writeErr := fun _ => none
  openErr := fun _ => none
  readErr := fun _ => none
  mkdirErr := fun _ => none

/-- A world holding a single file at `p` with contents `c` and no
injected errors. -/
def worldWithFile (p c : String) : World :=
  emptyWorld.setFile p c

/-! Helper lemmas shared by the claim theorems below. -/

/-- `save` succeeds exactly when serialization, file creation and the
write all succeed. -/
theorem Storage.save_ok_iff {α : Type} (cv : Codec α) (w : World) (p : String) (v : α) :
    (Storage.save cv w p v).1 = .ok () ↔
      (∃ s, cv.enc v = .ok s) ∧ w.createErr p = none ∧ w.writeErr p = none := by
  unfold Storage.save
  rcases henc : cv.enc v with m | s <;>
    rcases hc : w.createErr p with _ | e <;>
      rcases hw : w.writeErr p with _ | e2 <;> simp_all

/-- `load` returns a value exactly when the file exists and opening,
reading and decoding all succeed. -/
theorem Storage.load_ok_iff {α : Type} (cv : Codec α) (w : World) (p : String) :
    (∃ x, Storage.load cv w p = .ok x) ↔
      ∃ c, w.files p = some c ∧ w.openErr p = none ∧ w.readErr p = none ∧
        ∃ x, cv.dec c = .ok x := by
  unfold Storage.load
  rcases hf : w.files p with _ | c <;>
    rcases ho : w.openErr p with _ | e <;>
      rcases hr : w.readErr p with _ | e2 <;> simp_all
  rcases hd : cv.dec c with m | x <;> simp_all

/-- Any value returned by `load` is the decode of the file's contents:
no branch substitutes a default. -/
theorem Storage.load_ok_inv {α : Type} (cv : Codec α) (w : World) (p : String) (x : α)
    (h : Storage.load cv w p = .ok x) :
    ∃ c, w.files p = some c ∧ cv.dec c = .ok x := by
  unfold Storage.load at h
  split at h
  · simp at h
  rename_i content hf
  split at h
  · simp at h
  split at h
  · simp at h
  split at h
  · simp at h
  rename_i data hd
  rw [Except.ok.injEq] at h
  exact ⟨content, hf, h ▸ hd⟩

/-- The async save is the same function as the blocking save. -/
theorem Storage.save_async_eq_save {α : Type} (cv : Codec α) (w : World)
    (p : String) (v : α) :
    Storage.save_async cv w p v = Storage.save cv w p v := rfl

/-- The async load is the same function as the blocking load. -/
theorem Storage.load_async_eq_load {α : Type} (cv : Codec α) (w : World) (p : String) :
    Storage.load_async cv w p = Storage.load cv w p := rfl

/-- Claim C1: for every value `v` whose codec round-trips at `v` and
every valid target path `p` (one where file creation, writing, opening
and reading all succeed), `save p v` succeeds and a subsequent
`load p` on the resulting filesystem succeeds and returns `v`. -/
theorem save_then_load_roundtrip {α : Type} (cv : Codec α) (w : World)
    (p : String) (v : α) (s : String)
    (henc : cv.enc v = .ok s) (hdec : cv.dec s = .ok v)
    (hcreate : w.createErr p = none) (hwrite : w.writeErr p = none)
    (hopen : w.openErr p = none) (hread : w.readErr p = none) :
    (Storage.save cv w p v).1 = .ok () ∧
      Storage.load cv (Storage.save cv w p v).2 p = .ok v := by
  unfold Storage.save Storage.load
  rw [henc, hcreate, hwrite]
  simp [World.setFile, hopen, hread, hdec]

/-- Concrete check of C1: saving `5` under `natCodec` at path `cfg` in
the empty world succeeds, and loading it back returns `5`. -/
theorem save_then_load_roundtrip_witness :
    natCodec.enc 5 = .ok "5" ∧ natCodec.dec "5" = .ok 5 ∧
    (Storage.save natCodec emptyWorld "cfg" 5).1 = .ok () ∧
      Storage.load natCodec (Storage.save natCodec emptyWorld "cfg" 5).2 "cfg" = .ok 5 :=
  ⟨rfl, rfl,
    save_then_load_roundtrip natCodec emptyWorld "cfg" 5 "5" rfl rfl rfl rfl rfl rfl⟩

/-- Claim C2: for every input, the blocking and non-blocking variants
produce identical results — the same success/failure outcome and, for
`save`, the identical resulting filesystem (hence identical on-disk
bytes). -/
theorem async_sync_equivalence {α : Type} :
    ∀ (cv : Codec α) (w : World) (p : String) (v : α),
      Storage.save_async cv w p v = Storage.save cv w p v ∧
        Storage.load_async cv w p = Storage.load cv w p :=
  fun _ _ _ _ => ⟨rfl, rfl⟩

/-- Claim C4: the historical revision's `store::load` silently discards
deserialization results and always returns `None`, for every path and
every requested type — including when the file exists and its contents
deserialize successfully. -/
theorem store_load_always_none {α : Type} (cv : Codec α) (w : World) (p : String) :
    Store.load cv w p = none := by
  unfold Store.load
  split <;> rfl

/-- Claim C5: `load p` on a path with no existing file fails with
`NotFound`; the conclusion holds for every read-error oracle and every
codec, so the open failure is reported before any read or
deserialization is attempted and no partial read occurs. -/
theorem load_missing_file_not_found {α : Type} (cv : Codec α) (w : World) (p : String)
    (habsent : w.files p = none) :
    Storage.load cv w p = .error IoError.notFound := by
  unfold Storage.load
  rw [habsent]

/-- Concrete check of C5: loading path `missing` from the empty world
fails with `NotFound`. -/
theorem load_missing_file_not_found_witness :
    emptyWorld.files "missing" = none ∧
      Storage.load natCodec emptyWorld "missing" = .error IoError.notFound :=
  ⟨rfl, load_missing_file_not_found natCodec emptyWorld "missing" rfl⟩

/-- Claim C6: `load p` on a readable file whose text the codec rejects
— whether because it is not valid JSON or because it is valid JSON of
the wrong shape, both of which are `dec` failures — fails with
`decodeFailure` and returns no value. -/
theorem load_decode_failure {α : Type} (cv : Codec α) (w : World)
    (p content msg : String)
    (hfile : w.files p = some content) (hopen : w.openErr p = none)
    (hread : w.readErr p = none) (hdec : cv.dec content = .error msg) :
    Storage.load cv w p = .error (IoError.decodeFailure msg) := by
  unfold Storage.load
  rw [hfile, hopen, hread]
  simp [hdec]

/-- Concrete check of C6, once for syntactically invalid JSON (the
literal text `not json`) and once for valid JSON of the wrong shape for
a numeric target (`[1,2]`): both fail with `decodeFailure`. -/
theorem load_decode_failure_witness :
    natCodec.dec "not json" = .error "invalid type" ∧
    Storage.load natCodec (worldWithFile "f" "not json") "f"
        = .error (IoError.decodeFailure "invalid type") ∧
    natCodec.dec "[1,2]" = .error "invalid type" ∧
    Storage.load natCodec (worldWithFile "g" "[1,2]") "g"
        = .error (IoError.decodeFailure "invalid type") :=
  ⟨rfl,
    load_decode_failure natCodec (worldWithFile "f" "not json") "f" "not json"
      "invalid type" rfl rfl rfl rfl,
    rfl,
    load_decode_failure natCodec (worldWithFile "g" "[1,2]") "g" "[1,2]"
      "invalid type" rfl rfl rfl rfl⟩

/-- Claim C3: for each of the four operations, any failure of
serialization, deserialization, file creation, reading or writing is
surfaced as an error result: success of `save`/`save_async` is
equivalent to every underlying step succeeding, success of
`load`/`load_async` is equivalent to every underlying step succeeding,
and a successful `load` only ever returns the decode of the file's
contents, never a default value. -/
theorem error_propagation {α : Type} (cv : Codec α) (w : World) (p : String) (v : α) :
    ((Storage.save cv w p v).1 = .ok () ↔
        (∃ s, cv.enc v = .ok s) ∧ w.createErr p = none ∧ w.writeErr p = none) ∧
    ((Storage.save_async cv w p v).1 = .ok () ↔
        (∃ s, cv.enc v = .ok s) ∧ w.createErr p = none ∧ w.writeErr p = none) ∧
    ((∃ x, Storage.load cv w p = .ok x) ↔
        ∃ c, w.files p = some c ∧ w.openErr p = none ∧ w.readErr p = none ∧
          ∃ x, cv.dec c = .ok x) ∧
    ((∃ x, Storage.load_async cv w p = .ok x) ↔
        ∃ c, w.files p = some c ∧ w.openErr p = none ∧ w.readErr p = none ∧
          ∃ x, cv.dec c = .ok x) ∧
    (∀ x, Storage.load cv w p = .ok x → ∃ c, w.files p = some c ∧ cv.dec c = .ok x) :=
  ⟨Storage.save_ok_iff cv w p v,
    by rw [Storage.save_async_eq_save]; exact Storage.save_ok_iff cv w p v,
    Storage.load_ok_iff cv w p,
    by rw [Storage.load_async_eq_load]; exact Storage.load_ok_iff cv w p,
    fun x h => Storage.load_ok_inv cv w p x h⟩

/-- Claim C7: a successful `save` of `v2` over a path previously
holding a smaller encoding `s1` leaves the file containing exactly the
encoding `s2` of `v2`, with no residual bytes. -/
theorem save_truncates_previous {α : Type} (cv : Codec α) (w : World) (p : String)
    (v2 : α) (s1 s2 : String)
    (hprev : w.files p = some s1) (henc : cv.enc v2 = .ok s2)
    (hlarger : s1.length < s2.length)
    (hok : (Storage.save cv w p v2).1 = .ok ()) :
    (Storage.save cv w p v2).2.files p = some s2 := by
  unfold Storage.save at hok ⊢
  rcases hc : w.createErr p with _ | e <;>
    rcases hw : w.writeErr p with _ | e2 <;>
      simp_all [World.setFile]

/-- Concrete check of C7: the path `f` holds `"5"` (the encoding of
`5`, one byte); saving `42` (two bytes) succeeds and leaves exactly
`"42"` in the file. -/
theorem save_truncates_previous_witness :
    (worldWithFile "f" "5").files "f" = some "5" ∧
    natCodec.enc 42 = .ok "42" ∧
    ("5".length < "42".length) ∧
    (Storage.save natCodec (worldWithFile "f" "5") "f" 42).1 = .ok () ∧
    (Storage.save natCodec (worldWithFile "f" "5") "f" 42).2.files "f" = some "42" :=
  ⟨rfl, rfl, by decide, rfl,
    save_truncates_previous natCodec (worldWithFile "f" "5") "f" 42 "5" "42"
      rfl rfl (by decide) rfl⟩

/-- Claim C8: saving the same value twice leaves the file's content
identical to the content after a single save, and that content decodes
back to the value. -/
theorem save_idempotent {α : Type} (cv : Codec α) (w : World) (p : String)
    (v : α) (s : String)
    (henc : cv.enc v = .ok s) (hdec : cv.dec s = .ok v)
    (hcreate : w.createErr p = none) (hwrite : w.writeErr p = none) :
    (Storage.save cv (Storage.save cv w p v).2 p v).2.files p
        = (Storage.save cv w p v).2.files p ∧
    (Storage.save cv (Storage.save cv w p v).2 p v).2.files p = some s ∧
    cv.dec s = .ok v := by
  unfold Storage.save
  simp [World.setFile, henc, hcreate, hwrite, hdec]

/-- Concrete check of C8: saving `5` at `cfg` twice leaves the same
bytes as saving once, and they decode to `5`. -/
theorem save_idempotent_witness :
    natCodec.enc 5 = .ok "5" ∧
    (Storage.save natCodec (Storage.save natCodec emptyWorld "cfg" 5).2 "cfg" 5).2.files "cfg"
        = (Storage.save natCodec emptyWorld "cfg" 5).2.files "cfg" ∧
    (Storage.save natCodec (Storage.save natCodec emptyWorld "cfg" 5).2 "cfg" 5).2.files "cfg"
        = some "5" ∧
    natCodec.dec "5" = .ok 5 :=
  ⟨rfl,
    (save_idempotent natCodec emptyWorld "cfg" 5 "5" rfl rfl rfl rfl).1,
    (save_idempotent natCodec emptyWorld "cfg" 5 "5" rfl rfl rfl rfl).2.1,
    (save_idempotent natCodec emptyWorld "cfg" 5 "5" rfl rfl rfl rfl).2.2⟩

/-- The outcome of `store::save` depends only on serialization and on
`File::create` at the combined path: it never consults the directory
creation result or the write result. -/
theorem Store.save_fst_eq {α : Type} (cv : Codec α) (w : World)
    (path filename : String) (v : α) :
    (Store.save cv w path filename v).1 =
      match cv.enc v with
      | .error _ => .panicked
      | .ok _ =>
        match w.createErr (Store.combine_path path filename) with
        | some _ => .panicked
        | none => .ok := by
  unfold Store.save
  rcases henc : cv.enc v with m | s <;>
    rcases hx : w.pathExists path with _ | _ <;>
      rcases hm : w.mkdirErr path with _ | e <;>
        rcases hc : w.createErr (Store.combine_path path filename) with _ | e2 <;>
          rcases hw : w.writeErr (Store.combine_path path filename) with _ | e3 <;>
            simp_all [World.setDir, World.setFile]

/-- The directory map after `store::save` is exactly the one produced
by the initial conditional `fs::create_dir`: no later step touches it. -/
theorem Store.save_snd_dirs {α : Type} (cv : Codec α) (w : World)
    (path filename : String) (v : α) :
    (Store.save cv w path filename v).2.dirs =
      (if w.pathExists path then w
       else
         match w.mkdirErr path with
         | some _ => w
         | none => w.setDir path).dirs := by
  unfold Store.save
  rcases henc : cv.enc v with m | s <;>
    rcases hx : w.pathExists path with _ | _ <;>
      rcases hm : w.mkdirErr path with _ | e <;>
        rcases hc : w.createErr (Store.combine_path path filename) with _ | e2 <;>
          rcases hw : w.writeErr (Store.combine_path path filename) with _ | e3 <;>
            simp_all [World.setDir, World.setFile]

/-- `store::save` changes no file entry other than the one at the
combined path. -/
theorem Store.save_snd_files_frame {α : Type} (cv : Codec α) (w : World)
    (path filename : String) (v : α) (q : String)
    (hq : q ≠ Store.combine_path path filename) :
    (Store.save cv w path filename v).2.files q = w.files q := by
  unfold Store.save
  rcases henc : cv.enc v with m | s <;>
    rcases hx : w.pathExists path with _ | _ <;>
      rcases hm : w.mkdirErr path with _ | e <;>
        rcases hc : w.createErr (Store.combine_path path filename) with _ | e2 <;>
          rcases hw : w.writeErr (Store.combine_path path filename) with _ | e3 <;>
            simp_all [World.setDir, World.setFile]

/-- Claim C9: when the directory `path` does not exist, `store::save`
first creates it (that one entry only, not recursively), proceeds
identically whether or not that creation fails (the failure is
silently ignored and leaves the directory map unchanged), and writes
no file other than the one inside the directory. -/
theorem store_save_dir_side_effect {α : Type} (cv : Codec α) (w : World)
    (path filename : String) (v : α)
    (habsent : w.pathExists path = false) :
    (w.mkdirErr path = none →
        ∀ d, (Store.save cv w path filename v).2.dirs d
          = if d = path then true else w.dirs d) ∧
    (∀ e, w.mkdirErr path = some e →
        (Store.save cv w path filename v).2.dirs = w.dirs) ∧
    (∀ m, (Store.save cv { w with mkdirErr := m } path filename v).1
        = (Store.save cv w path filename v).1) ∧
    (∀ q, q ≠ Store.combine_path path filename →
        (Store.save cv w path filename v).2.files q = w.files q) := by
  refine ⟨?_, ?_, ?_, ?_⟩
  · intro hmk d
    rw [Store.save_snd_dirs, habsent]
    simp [hmk, World.setDir]
  · intro e hmk
    rw [Store.save_snd_dirs, habsent]
    simp [hmk]
  · intro m
    rw [Store.save_fst_eq, Store.save_fst_eq]
  · intro q hq
    exact Store.save_snd_files_frame cv w path filename v q hq

/-- Concrete check of C9: in the empty world the directory `docs` does
not exist; `store::save` to `docs/test.txt` creates the `docs`
directory entry and touches no other file. -/
theorem store_save_dir_side_effect_witness :
    emptyWorld.pathExists "docs" = false ∧
    ((emptyWorld.mkdirErr "docs" = none →
        ∀ d, (Store.save natCodec emptyWorld "docs" "test.txt" 7).2.dirs d
          = if d = "docs" then true else emptyWorld.dirs d) ∧
    (∀ e, emptyWorld.mkdirErr "docs" = some e →
        (Store.save natCodec emptyWorld "docs" "test.txt" 7).2.dirs = emptyWorld.dirs) ∧
    (∀ m, (Store.save natCodec { emptyWorld with mkdirErr := m } "docs" "test.txt" 7).1
        = (Store.save natCodec emptyWorld "docs" "test.txt" 7).1) ∧
    (∀ q, q ≠ Store.combine_path "docs" "test.txt" →
        (Store.save natCodec emptyWorld "docs" "test.txt" 7).2.files q
          = emptyWorld.files q)) :=
  ⟨rfl, store_save_dir_side_effect natCodec emptyWorld "docs" "test.txt" 7 rfl⟩

/-- Claim C10: `store::save` never reports failure to its caller: it
terminates normally or panics, it panics exactly when serialization or
`File::create` fails, and its outcome is unchanged by any write-error
oracle — a failed `write_all` is indistinguishable from success. -/
theorem store_save_never_reports_failure {α : Type} (cv : Codec α) (w : World)
    (path filename : String) (v : α) :
    ((Store.save cv w path filename v).1 = .panicked ↔
        (∃ m, cv.enc v = .error m) ∨
          ∃ e, w.createErr (Store.combine_path path filename) = some e) ∧
    ((Store.save cv w path filename v).1 = .ok ↔
        (∃ s, cv.enc v = .ok s) ∧
          w.createErr (Store.combine_path path filename) = none) ∧
    (∀ m, (Store.save cv { w with writeErr := m } path filename v).1
        = (Store.save cv w path filename v).1) := by
  refine ⟨?_, ?_, ?_⟩
  · rw [Store.save_fst_eq]
    rcases henc : cv.enc v with m | s <;>
      rcases hc : w.createErr (Store.combine_path path filename) with _ | e <;>
        simp_all
  · rw [Store.save_fst_eq]
    rcases henc : cv.enc v with m | s <;>
      rcases hc : w.createErr (Store.combine_path path filename) with _ | e <;>
        simp_all
  · intro m
    rw [Store.save_fst_eq, Store.save_fst_eq]
